import Mathlib

/-!
Verification development for the Silksong game prototypes.

Shallow embedding of the simulation cores:
  * `Hornet`            — the action-game player (src/hornet.py)
  * `Animation`         — the sprite-frame player (src/animation.py)
  * `TransitionManager` — the scene-transition state machine (src/transition.py)
  * `StealthGame`       — the stealth mission simulation (src/Stealth Game.py)

Conventions: Python floats are modelled as `ℚ` (the source only ever
performs field arithmetic on them), Python ints as `ℤ`.  Randomness is
modelled by passing the outcome of each random draw as an explicit
argument (an oracle), so theorems quantify over all possible draws.
Presentation-only state (sprite surfaces, fonts, toasts, particles,
camera-look offsets, pixel rectangles) is elided: those fields are
neither read nor written by the simulation logic the claims concern.
-/

namespace Silksong

/-! ### Hornet — src/hornet.py

Fields of `Hornet.__init__` that the resource/heal/damage logic reads or
writes.  Physics fields (`rect`, `velocity_y`, `on_ground`) and
camera-look fields are elided: `take_damage`, `start_heal_channel`,
`heal`, `gain_silk` and the heal/cooldown portion of `update` neither
read nor write them. -/

structure Hornet where
  health : ℤ
  silk : ℤ
  is_healing : Bool
  heal_channel_timer : ℚ
  attack_timer : ℚ
  dash_timer : ℚ
  special_timer : ℚ
  deriving Repr, DecidableEq

namespace Hornet

/-- Constant `self.max_health = 5`. -/
def max_health : ℤ := 5

/-- Constant `self.heal_amount = 3`. -/
def heal_amount : ℤ := 3

/-- Constant `self.max_silk = 99`. -/
def max_silk : ℤ := 99

/-- Constant `self.heal_channel_duration = 2.0`. -/
def heal_channel_duration : ℚ := 2

/-- Initial player state from `Hornet.__init__`. -/
def init : Hornet :=
  { health := 5, silk := 0, is_healing := false, heal_channel_timer := 0
    attack_timer := 0, dash_timer := 0, special_timer := 0 }

/-- `Hornet.gain_silk`. -/
def gain_silk (s : Hornet) (amount : ℤ) : Hornet :=
  if amount ≤ 0 then s
  else { s with silk := min max_silk (s.silk + amount) }

/-- `Hornet.start_heal_channel`: returns the new state and the boolean
the Python method returns. -/
def start_heal_channel (s : Hornet) : Hornet × Bool :=
  if s.is_healing then (s, false)
  else if s.silk ≤ 0 then (s, false)
  else if s.health ≥ max_health then (s, false)
  else
    ({ s with silk := 0, is_healing := true
              heal_channel_timer := heal_channel_duration }, true)

/-- `Hornet.cancel_heal_channel`. -/
def cancel_heal_channel (s : Hornet) : Hornet :=
  { s with is_healing := false, heal_channel_timer := 0 }

/-- `Hornet.heal`. -/
def heal (s : Hornet) : Hornet :=
  if s.health < max_health then
    { s with health := min (s.health + heal_amount) max_health }
  else s

/-- `Hornet.take_damage`. -/
def take_damage (s : Hornet) (damage : ℤ) : Hornet :=
  if damage ≤ 0 then s
  else
    let s1 := if s.is_healing then s.cancel_heal_channel else s
    { s1 with health := max 0 (s1.health - damage) }

/-- The cooldown/heal portion of `Hornet.update` (the physics and
camera-look code below it touches none of the modelled fields). -/
def update (s : Hornet) (dt : ℚ) : Hornet :=
  let s :=
    { s with
      attack_timer := if s.attack_timer > 0 then max 0 (s.attack_timer - dt) else s.attack_timer
      dash_timer := if s.dash_timer > 0 then max 0 (s.dash_timer - dt) else s.dash_timer
      special_timer := if s.special_timer > 0 then max 0 (s.special_timer - dt) else s.special_timer }
  if s.is_healing then
    let t := s.heal_channel_timer - dt
    if t ≤ 0 then
      ({ s with heal_channel_timer := 0, is_healing := false }).heal
    else { s with heal_channel_timer := t }
  else s

/-- Fold a sequence of frame updates over the player state. -/
def run_updates (s : Hornet) (dts : List ℚ) : Hornet :=
  dts.foldl update s

@[simp] theorem hornet_run_updates_nil (s : Hornet) : s.run_updates [] = s := rfl

@[simp] theorem hornet_run_updates_cons (s : Hornet) (d : ℚ) (dts : List ℚ) :
    s.run_updates (d :: dts) = (s.update d).run_updates dts := rfl

/-- While a heal channel is active and the elapsed time stays strictly
below the remaining channel timer, updates only tick the timer down:
health, silk and the healing flag are untouched. -/
theorem run_updates_healing (dts : List ℚ) :
    ∀ s : Hornet, (∀ d ∈ dts, 0 ≤ d) → s.is_healing = true →
      dts.sum < s.heal_channel_timer →
      (s.run_updates dts).is_healing = true ∧
      (s.run_updates dts).heal_channel_timer = s.heal_channel_timer - dts.sum ∧
      (s.run_updates dts).health = s.health ∧
      (s.run_updates dts).silk = s.silk := by
  induction dts with
  | nil => intro s _ hheal _; exact ⟨hheal, by simp, rfl, rfl⟩
  | cons d rest ih =>
    intro s hnn hheal hsum
    have hd : 0 ≤ d := hnn d (List.mem_cons_self d rest)
    have hrest : ∀ x ∈ rest, 0 ≤ x := fun x hx => hnn x (List.mem_cons_of_mem d hx)
    have hrsum : 0 ≤ rest.sum := List.sum_nonneg hrest
    have hdlt : d < s.heal_channel_timer := by
      have : d + rest.sum < s.heal_channel_timer := by
        simpa [List.sum_cons] using hsum
      linarith
    have hstep : s.update d =
        { s with
          attack_timer := if s.attack_timer > 0 then max 0 (s.attack_timer - d) else s.attack_timer
          dash_timer := if s.dash_timer > 0 then max 0 (s.dash_timer - d) else s.dash_timer
          special_timer := if s.special_timer > 0 then max 0 (s.special_timer - d) else s.special_timer
          heal_channel_timer := s.heal_channel_timer - d } := by
      simp only [update, hheal]
      have hpos : ¬ (s.heal_channel_timer - d ≤ 0) := by linarith
      simp [hpos]
    have hsum2 : rest.sum < (s.update d).heal_channel_timer := by
      rw [hstep]
      show rest.sum < s.heal_channel_timer - d
      have : d + rest.sum < s.heal_channel_timer := by
        simpa [List.sum_cons] using hsum
      linarith
    have ihres := ih (s.update d) hrest (by rw [hstep]; exact hheal) hsum2
    rw [hornet_run_updates_cons]
    refine ⟨ihres.1, ?_, ?_, ?_⟩
    · rw [ihres.2.1, hstep]
      simp [List.sum_cons]
      ring
    · rw [ihres.2.2.1, hstep]
    · rw [ihres.2.2.2, hstep]

/-- On completion (the first update in which the accumulated channel
time reaches the full duration), health rises by the heal amount
clamped to max health and the channel ends. -/
theorem update_completes_heal (s : Hornet) (dt : ℚ)
    (hheal : s.is_healing = true) (hdone : s.heal_channel_timer ≤ dt) :
    (s.update dt).is_healing = false ∧
    (s.update dt).health =
      (if s.health < max_health then min (s.health + heal_amount) max_health else s.health) ∧
    (s.update dt).silk = s.silk := by
  have hle : s.heal_channel_timer - dt ≤ 0 := by linarith
  simp only [update, hheal, if_pos hle, heal]
  by_cases hh : s.health < max_health <;> simp [hh]

/-- `C2`: starting a heal channel from a state with silk available and
missing health succeeds and zeroes silk immediately; every following
update whose accumulated time stays below the 2-second channel
duration leaves health untouched with the channel active and silk still
zero; the update reaching the deadline applies the clamped heal and
ends the channel; and positive damage taken before the deadline cancels
the channel with silk remaining zero (not refunded). -/
theorem heal_channel_spec (s₀ : Hornet)
    (hsilk : 0 < s₀.silk) (hhp : s₀.health < max_health)
    (hnot : s₀.is_healing = false) :
    (s₀.start_heal_channel).2 = true ∧
    (s₀.start_heal_channel).1.silk = 0 ∧
    (∀ dts : List ℚ, (∀ d ∈ dts, 0 ≤ d) → dts.sum < heal_channel_duration →
      ((s₀.start_heal_channel).1.run_updates dts).health = s₀.health ∧
      ((s₀.start_heal_channel).1.run_updates dts).is_healing = true ∧
      ((s₀.start_heal_channel).1.run_updates dts).silk = 0) ∧
    (∀ (dts : List ℚ) (dt : ℚ), (∀ d ∈ dts, 0 ≤ d) →
      dts.sum < heal_channel_duration → heal_channel_duration ≤ dts.sum + dt →
      (((s₀.start_heal_channel).1.run_updates dts).update dt).health =
        min (s₀.health + heal_amount) max_health ∧
      (((s₀.start_heal_channel).1.run_updates dts).update dt).is_healing = false) ∧
    (∀ (dts : List ℚ) (dmg : ℤ), (∀ d ∈ dts, 0 ≤ d) →
      dts.sum < heal_channel_duration → 0 < dmg →
      (((s₀.start_heal_channel).1.run_updates dts).take_damage dmg).is_healing = false ∧
      (((s₀.start_heal_channel).1.run_updates dts).take_damage dmg).silk = 0) := by
  have hnsilk : ¬ s₀.silk ≤ 0 := by omega
  have hnhp : ¬ s₀.health ≥ max_health := by omega
  have hstart : s₀.start_heal_channel =
      ({ s₀ with silk := 0, is_healing := true
                 heal_channel_timer := heal_channel_duration }, true) := by
    simp [start_heal_channel, hnot, hnsilk, hnhp]
  set s₁ : Hornet :=
    { s₀ with silk := 0, is_healing := true
              heal_channel_timer := heal_channel_duration } with hs₁
  have hmid : ∀ dts : List ℚ, (∀ d ∈ dts, 0 ≤ d) → dts.sum < heal_channel_duration →
      (s₁.run_updates dts).health = s₀.health ∧
      (s₁.run_updates dts).is_healing = true ∧
      (s₁.run_updates dts).silk = 0 ∧
      (s₁.run_updates dts).heal_channel_timer = heal_channel_duration - dts.sum := by
    intro dts hnn hlt
    have := run_updates_healing dts s₁ hnn rfl (by rw [hs₁]; exact hlt)
    exact ⟨this.2.2.1, this.1, this.2.2.2, this.2.1⟩
  rw [hstart]
  refine ⟨rfl, rfl, ?_, ?_, ?_⟩
  · intro dts hnn hlt
    exact ⟨(hmid dts hnn hlt).1, (hmid dts hnn hlt).2.1, (hmid dts hnn hlt).2.2.1⟩
  · intro dts dt hnn hlt hge
    obtain ⟨hh, hi, hk, ht⟩ := hmid dts hnn hlt
    have hdone : (s₁.run_updates dts).heal_channel_timer ≤ dt := by
      rw [ht]; linarith
    obtain ⟨c1, c2, _⟩ := update_completes_heal _ dt hi hdone
    constructor
    · rw [c2, hh]
      simp [hhp]
    · exact c1
  · intro dts dmg hnn hlt hdmg
    obtain ⟨hh, hi, hk, ht⟩ := hmid dts hnn hlt
    have hnneg : ¬ dmg ≤ 0 := by omega
    constructor
    · simp [take_damage, hnneg, hi, cancel_heal_channel]
    · simp [take_damage, hnneg, hi, cancel_heal_channel, hk]

/-- Witness for `heal_channel_spec` at a concrete state and inputs. -/
theorem heal_channel_spec_witness :
    (0 : ℤ) < 7 ∧ (2 : ℤ) < max_health ∧
    (({ health := 2, silk := 7, is_healing := false, heal_channel_timer := 0
        attack_timer := 0, dash_timer := 0, special_timer := 0 : Hornet
      }.start_heal_channel).1.run_updates [1/2, 1]).health = 2 := by
  have h := heal_channel_spec
    { health := 2, silk := 7, is_healing := false, heal_channel_timer := 0
      attack_timer := 0, dash_timer := 0, special_timer := 0 }
    (by decide) (by decide) rfl
  refine ⟨by decide, by decide, ?_⟩
  have := (h.2.2.1 [1/2, 1] (by intro d hd; fin_cases hd <;> norm_num) (by
    simp [heal_channel_duration]; norm_num)).1
  simpa using this

/-- `C10`: `take_damage` with a non-positive damage amount returns the
player state entirely unchanged — in particular an active heal channel
is not cancelled. -/
theorem take_damage_nonpositive (s : Hornet) (damage : ℤ)
    (h : damage ≤ 0) : s.take_damage damage = s := by
  simp [take_damage, h]

/-- Witness for `take_damage_nonpositive`: zero damage during an active
channel leaves the state (channel included) intact. -/
theorem take_damage_nonpositive_witness :
    ({ health := 2, silk := 0, is_healing := true, heal_channel_timer := 1
       attack_timer := 0, dash_timer := 0, special_timer := 0 : Hornet
     }.take_damage 0) =
    { health := 2, silk := 0, is_healing := true, heal_channel_timer := 1
      attack_timer := 0, dash_timer := 0, special_timer := 0 } :=
  take_damage_nonpositive _ 0 (by decide)

end Hornet

/-! ### Animation — src/animation.py

Playback state of the active clip.  The `animations` dictionary, the
clip name and the pygame frame surfaces are elided: `Animation.update`
reads only the active clip's `durations`, `loop` and `pingpong` entries
plus the playback fields below.  `set_animation` corresponds to
building a state with `current_frame = 0` (or `count-1` in reverse),
`elapsed = 0`, `playing = true`, `finished = false`. -/

structure Animation where
  durations : List ℚ
  loop : Bool
  pingpong : Bool
  elapsed : ℚ
  current_frame : ℤ
  playing : Bool
  finished : Bool
  reverse : Bool
  deriving Repr, DecidableEq

namespace Animation

/-- `frame_count = len(durations)` (`add_animation` normalizes
`durations` to have one entry per frame). -/
def frame_count (s : Animation) : ℤ := s.durations.length

/-- Duration of the current frame, `durations[self.current_frame]`.
The update loop only ever evaluates this with the index in bounds. -/
def current_duration (s : Animation) : ℚ :=
  s.durations.getD s.current_frame.toNat 0

/-- One iteration of the `while` body in `Animation.update`: subtract
the current frame duration, step the index by the playback direction,
then handle bounds (pingpong bounce, loop wrap, or terminal clamp).
The boolean is `true` on the `continue` paths and `false` on the
terminal `break` path. -/
def step_body (s : Animation) : Animation × Bool :=
  let s1 := { s with
    elapsed := s.elapsed - current_duration s
    current_frame := if s.reverse then s.current_frame - 1 else s.current_frame + 1 }
  if 0 ≤ s1.current_frame ∧ s1.current_frame < frame_count s1 then (s1, true)
  else if s1.pingpong then
    let r := !s1.reverse
    ({ s1 with
       reverse := r
       current_frame :=
         if r then (if 1 < frame_count s1 then frame_count s1 - 2 else 0)
         else (if 1 < frame_count s1 then 1 else 0) }, true)
  else if s1.loop then
    ({ s1 with
       current_frame :=
         if s1.current_frame ≥ frame_count s1 then 0
         else if s1.current_frame < 0 then frame_count s1 - 1
         else s1.current_frame }, true)
  else
    ({ s1 with
       current_frame :=
         if s1.current_frame ≥ frame_count s1 then frame_count s1 - 1
         else if s1.current_frame < 0 then 0
         else s1.current_frame
       playing := false
       finished := true }, false)

/-- Fuel-bounded unfolding of the `while elapsed >= durations[i]` loop
of `Animation.update`.  The Python loop diverges when a duration is
non-positive; the embedding truncates with fuel, and the fuel chosen in
`update` dominates the iteration count whenever every duration is
positive (each iteration removes at least the minimum duration from
`elapsed`, and the loop guard needs `elapsed` at least that much). -/
def drain : ℕ → Animation → Animation
  | 0, s => s
  | n + 1, s =>
    if current_duration s ≤ s.elapsed then
      let r := step_body s
      if r.2 then drain n r.1 else r.1
    else s

/-- A positive lower bound of every frame duration (when all durations
are positive), used to size the fuel. -/
def min_duration (s : Animation) : ℚ := s.durations.foldr min 1

/-- `Animation.update`: the early-out guards, then accumulate `dt` into
`elapsed` and drain whole frames.  (The `current_animation is None`
guard is elided: the state always models an active clip.) -/
def update (dt : ℚ) (s : Animation) : Animation :=
  if !s.playing || s.finished then s
  else if s.durations.length = 0 then s
  else
    let e := s.elapsed + dt
    drain ((Int.ceil (e / min_duration s)).toNat + 1) { s with elapsed := e }

/-- Fold a sequence of frame updates over the animation state. -/
def run_updates (s : Animation) (dts : List ℚ) : Animation :=
  dts.foldl (fun t d => update d t) s

@[simp] theorem run_updates_nil (s : Animation) : s.run_updates [] = s := rfl

@[simp] theorem run_updates_cons (s : Animation) (d : ℚ) (dts : List ℚ) :
    s.run_updates (d :: dts) = (update d s).run_updates dts := rfl

/-- A finished animation ignores updates entirely. -/
theorem update_finished (dt : ℚ) (s : Animation) (h : s.finished = true) :
    update dt s = s := by
  simp [update, h]

/-- A finished animation ignores any sequence of updates. -/
theorem run_updates_finished (dts : List ℚ) (s : Animation)
    (h : s.finished = true) : s.run_updates dts = s := by
  induction dts with
  | nil => rfl
  | cons d rest ih => rw [run_updates_cons, update_finished d s h]; exact ih

/-- `C6`: pingpong bounce.  Whenever the `while`-body steps the frame
index out of bounds on a pingpong clip, the direction flag is inverted
and the index lands on the reflection point: `count-2` bouncing off the
last frame of a multi-frame clip, `1` bouncing off frame 0 of a
multi-frame clip, and `0` for a single-frame clip — never the boundary
frame itself when more than one frame exists. -/
theorem pingpong_bounce (s : Animation)
    (hpp : s.pingpong = true) (hn : 0 ≤ s.current_frame)
    (hlt : s.current_frame < s.frame_count) :
    ((s.reverse = false → s.current_frame = s.frame_count - 1 → 1 < s.frame_count →
        (s.step_body).1.reverse = true ∧
        (s.step_body).1.current_frame = s.frame_count - 2 ∧
        (s.step_body).2 = true)) ∧
    ((s.reverse = true → s.current_frame = 0 → 1 < s.frame_count →
        (s.step_body).1.reverse = false ∧
        (s.step_body).1.current_frame = 1 ∧
        (s.step_body).2 = true)) ∧
    ((s.frame_count = 1 →
        (s.step_body).1.current_frame = 0 ∧
        (s.step_body).1.reverse = !s.reverse ∧
        (s.step_body).2 = true)) := by
  simp only [frame_count] at hlt ⊢
  refine ⟨?_, ?_, ?_⟩
  · intro hrev hf h1
    have hoob : ¬ (0 ≤ s.current_frame + 1 ∧
        s.current_frame + 1 < ((s.durations.length : ℤ))) := by omega
    simp [step_body, frame_count, hrev, hpp, hoob, h1]
  · intro hrev hf h1
    simp [step_body, frame_count, hrev, hpp, h1]
    split_ifs with hc
    · omega
    · simp
  · intro h1
    have hf : s.current_frame = 0 := by omega
    cases hrev : s.reverse with
    | false =>
      simp [step_body, frame_count, hrev, hpp, h1]
      split_ifs with hc
      · omega
      · simp
    | true =>
      simp [step_body, frame_count, hrev, hpp, h1]
      split_ifs with hc
      · omega
      · simp

/-- Witness for `pingpong_bounce`: a 3-frame pingpong clip at its last
frame, moving forward, bounces to index 1 with the direction flag
inverted. -/
theorem pingpong_bounce_witness :
    (({ durations := [1, 1, 1], loop := false, pingpong := true
        elapsed := 1, current_frame := 2, playing := true
        finished := false, reverse := false : Animation }).step_body).1.current_frame = 1 := by
  have h := pingpong_bounce
    { durations := [1, 1, 1], loop := false, pingpong := true
      elapsed := 1, current_frame := 2, playing := true
      finished := false, reverse := false }
    rfl (by decide) (by decide)
  have := (h.1 rfl (by decide) (by decide)).2.1
  simpa using this

theorem getD_replicate_of_lt (d : ℚ) (n i : ℕ) (h : i < n) :
    (List.replicate n d).getD i 0 = d := by
  rw [List.getD_eq_getElem _ _ (by simpa using h)]
  simp

/-- Playback state of a forward-playing 4-frame looping clip with
uniform frame duration `d` (as built by `add_animation` with
`num_frames=4, loop=True` and played by `set_animation`). -/
def loop4 (d e : ℚ) (f : ℤ) : Animation :=
  { durations := List.replicate 4 d, loop := true, pingpong := false
    elapsed := e, current_frame := f, playing := true, finished := false
    reverse := false }

/-- Closed form of the frame-draining loop on a uniform 4-frame looping
clip: with enough fuel the state advances by `⌊elapsed/d⌋` frames
modulo 4 and keeps the remainder as the new `elapsed`. -/
theorem drain_loop4 (d : ℚ) (hd : 0 < d) :
    ∀ (n : ℕ) (f : ℤ) (e : ℚ), 0 ≤ f → f < 4 → 0 ≤ e → e < n * d →
      drain n (loop4 d e f) = loop4 d (e - d * ⌊e / d⌋) ((f + ⌊e / d⌋) % 4) := by
  intro n
  induction n with
  | zero =>
    intro f e _ _ he0 hlt
    exfalso
    rw [Nat.cast_zero, zero_mul] at hlt
    linarith
  | succ n ih =>
    intro f e hf0 hf4 he0 hlt
    have hget : (List.replicate 4 d).getD f.toNat 0 = d :=
      getD_replicate_of_lt d 4 f.toNat (by omega)
    have hcd : current_duration (loop4 d e f) = d := by
      simpa [current_duration, loop4] using hget
    by_cases hde : d ≤ e
    · have hcond : current_duration (loop4 d e f) ≤ (loop4 d e f).elapsed := by
        rw [hcd]; exact hde
      have hfl : ⌊e / d⌋ = ⌊(e - d) / d⌋ + 1 := by
        have hdiv : (e - d) / d = e / d - 1 := by
          field_simp
        rw [hdiv]
        rw [show e / d - (1 : ℚ) = e / d - ((1 : ℤ) : ℚ) by norm_num]
        rw [Int.floor_sub_int]
        ring
      by_cases hf3 : f + 1 < 4
      · have hsb : step_body (loop4 d e f) = (loop4 d (e - d) (f + 1), true) := by
          unfold step_body
          rw [hcd]
          simp [loop4, frame_count]
          all_goals intros
          all_goals omega
        rw [drain, if_pos hcond, hsb]
        show drain n (loop4 d (e - d) (f + 1)) = _
        rw [ih (f + 1) (e - d) (by omega) hf3 (by linarith)
          (by push_cast at hlt ⊢; linarith)]
        rw [hfl]
        push_cast
        have e_eq : e - d * ((⌊(e - d) / d⌋ : ℚ) + 1) =
            e - d - d * (⌊(e - d) / d⌋ : ℚ) := by ring
        have f_eq : (f + (⌊(e - d) / d⌋ + 1)) % 4 = (f + 1 + ⌊(e - d) / d⌋) % 4 := by
          congr 1
          ring
        rw [e_eq, f_eq]
      · have hf_eq : f = 3 := by omega
        have hsb : step_body (loop4 d e f) = (loop4 d (e - d) 0, true) := by
          unfold step_body
          rw [hcd]
          simp [loop4, frame_count, hf_eq]
        rw [drain, if_pos hcond, hsb]
        show drain n (loop4 d (e - d) 0) = _
        rw [ih 0 (e - d) le_rfl (by norm_num) (by linarith)
          (by push_cast at hlt ⊢; linarith)]
        rw [hfl, hf_eq]
        push_cast
        have e_eq : e - d * ((⌊(e - d) / d⌋ : ℚ) + 1) =
            e - d - d * (⌊(e - d) / d⌋ : ℚ) := by ring
        have f_eq : ((3 : ℤ) + (⌊(e - d) / d⌋ + 1)) % 4 = (0 + ⌊(e - d) / d⌋) % 4 := by
          omega
        rw [e_eq, f_eq]
    · have hfl : ⌊e / d⌋ = 0 := by
        rw [Int.floor_eq_zero_iff, Set.mem_Ico]
        refine ⟨div_nonneg he0 hd.le, ?_⟩
        rw [div_lt_one hd]
        linarith
      have hcond : ¬ current_duration (loop4 d e f) ≤ (loop4 d e f).elapsed := by
        rw [hcd]; exact hde
      rw [drain, if_neg hcond, hfl]
      have e_eq : e - d * (((0 : ℤ) : ℚ)) = e := by push_cast; ring
      have f_eq : (f + 0) % 4 = f := by omega
      rw [e_eq, f_eq]

theorem foldr_min_le (L : List ℚ) (x : ℚ) (hx : x ∈ L) : L.foldr min 1 ≤ x := by
  induction L with
  | nil => cases hx
  | cons a t ih =>
    rcases List.mem_cons.mp hx with h | h
    · subst h; exact min_le_left _ _
    · exact le_trans (min_le_right _ _) (ih h)

theorem foldr_min_pos (L : List ℚ) (h : ∀ x ∈ L, 0 < x) : 0 < L.foldr min 1 := by
  induction L with
  | nil => norm_num
  | cons a t ih =>
    exact lt_min (h a (List.mem_cons_self a t))
      (ih fun x hx => h x (List.mem_cons_of_mem a hx))

/-- Playback state of a forward-playing one-shot clip (no loop, no
pingpong) with duration list `D`, parameterized by elapsed time and
frame index. -/
def oneshot (D : List ℚ) (e : ℚ) (f : ℤ) : Animation :=
  { durations := D, loop := false, pingpong := false
    elapsed := e, current_frame := f, playing := true, finished := false
    reverse := false }

/-- Terminal state of a one-shot clip: clamped to the last frame,
`finished` set, `playing` cleared. -/
def oneshot_done (D : List ℚ) (e : ℚ) : Animation :=
  { durations := D, loop := false, pingpong := false
    elapsed := e, current_frame := (D.length : ℤ) - 1, playing := false
    finished := true, reverse := false }

/-- Draining a one-shot clip whose remaining elapsed time strictly
exceeds the total remaining frame time clamps it to the last frame and
finishes it, with the consumed time subtracted. -/
theorem drain_oneshot (D : List ℚ) (hpos : ∀ x ∈ D, 0 < x) :
    ∀ (m : ℕ) (f : ℕ) (e : ℚ), f < D.length → D.length - f ≤ m →
      (D.drop f).sum < e →
      drain m (oneshot D e (f : ℤ)) = oneshot_done D (e - (D.drop f).sum) := by
  intro m
  induction m with
  | zero =>
    intro f e hf hm _
    exfalso
    omega
  | succ m ih =>
    intro f e hf hm he
    have hdropsum : (D.drop f).sum = D.getD f 0 + (D.drop (f + 1)).sum := by
      rw [List.drop_eq_getElem_cons hf, List.sum_cons, List.getD_eq_getElem _ _ hf]
    have hrest_nonneg : 0 ≤ (D.drop (f + 1)).sum :=
      List.sum_nonneg fun x hx => (hpos x (List.mem_of_mem_drop hx)).le
    have hget_pos : 0 < D.getD f 0 := by
      rw [List.getD_eq_getElem _ _ hf]
      exact hpos _ (List.getElem_mem hf)
    have hcd : current_duration (oneshot D e (f : ℤ)) = D.getD f 0 := by
      simp [current_duration, oneshot]
    have hguard : D.getD f 0 ≤ e := by
      rw [hdropsum] at he
      linarith
    have hcond : current_duration (oneshot D e (f : ℤ)) ≤ (oneshot D e (f : ℤ)).elapsed := by
      rw [hcd]; exact hguard
    by_cases hf1 : f + 1 < D.length
    · have hsb : step_body (oneshot D e (f : ℤ)) =
          (oneshot D (e - D.getD f 0) ((f + 1 : ℕ) : ℤ), true) := by
        unfold step_body
        rw [hcd]
        simp [oneshot, frame_count]
        all_goals omega
      rw [drain, if_pos hcond, hsb]
      show drain m (oneshot D (e - D.getD f 0) ((f + 1 : ℕ) : ℤ)) = _
      rw [ih (f + 1) (e - D.getD f 0) hf1 (by omega) (by rw [hdropsum] at he; linarith)]
      rw [hdropsum]
      congr 1
      ring
    · have hlen : f + 1 = D.length := by omega
      have hsb : step_body (oneshot D e (f : ℤ)) =
          (oneshot_done D (e - D.getD f 0), false) := by
        unfold step_body
        rw [hcd]
        simp [oneshot, oneshot_done, frame_count]
        rw [if_neg (by omega)]
        rw [if_pos (by omega)]
      rw [drain, if_pos hcond, hsb]
      show oneshot_done D (e - D.getD f 0) = _
      have hdrop1 : D.drop (f + 1) = [] := by
        rw [hlen, List.drop_length]
      rw [hdropsum, hdrop1]
      simp

/-- Closed form of `update` on the uniform 4-frame looping clip. -/
theorem update_loop4 (d : ℚ) (hd : 0 < d) (f : ℤ) (e dt : ℚ)
    (hf0 : 0 ≤ f) (hf4 : f < 4) (he : 0 ≤ e) (hdt : 0 ≤ dt) :
    update dt (loop4 d e f) =
      loop4 d ((e + dt) - d * ⌊(e + dt) / d⌋) ((f + ⌊(e + dt) / d⌋) % 4) := by
  have hstep : update dt (loop4 d e f) =
      drain ((Int.ceil ((e + dt) / min_duration (loop4 d e f))).toNat + 1)
        (loop4 d (e + dt) f) := rfl
  have hmem : d ∈ (loop4 d e f).durations := by simp [loop4]
  have hdmin_le : min_duration (loop4 d e f) ≤ d := foldr_min_le _ d hmem
  have hdmin_pos : 0 < min_duration (loop4 d e f) := by
    refine foldr_min_pos _ fun x hx => ?_
    simp only [loop4, List.mem_replicate] at hx
    rw [hx.2]; exact hd
  have hE : 0 ≤ e + dt := by linarith
  have hfuel : e + dt <
      (((Int.ceil ((e + dt) / min_duration (loop4 d e f))).toNat + 1 : ℕ) : ℚ) * d := by
    have h1 : (e + dt) / d ≤ (e + dt) / min_duration (loop4 d e f) := by
      gcongr
    have h2 : (e + dt) / min_duration (loop4 d e f) ≤
        ((Int.ceil ((e + dt) / min_duration (loop4 d e f)) : ℤ) : ℚ) :=
      Int.le_ceil _
    have h3 : ((Int.ceil ((e + dt) / min_duration (loop4 d e f)) : ℤ) : ℚ) ≤
        (((Int.ceil ((e + dt) / min_duration (loop4 d e f))).toNat : ℤ) : ℚ) := by
      exact_mod_cast Int.self_le_toNat _
    have h4 : (e + dt) / d <
        (((Int.ceil ((e + dt) / min_duration (loop4 d e f))).toNat + 1 : ℕ) : ℚ) := by
      push_cast at h3 ⊢
      linarith
    calc e + dt = ((e + dt) / d) * d := by field_simp
    _ < _ := by
      exact mul_lt_mul_of_pos_right h4 hd
  rw [hstep, drain_loop4 d hd _ f (e + dt) hf0 hf4 hE hfuel]

/-- Running any sequence of non-negative updates over the uniform
4-frame looping clip advances it by the total elapsed time: the state
is a function of cumulative time only. -/
theorem run_updates_loop4 (d : ℚ) (hd : 0 < d) (dts : List ℚ) :
    ∀ E : ℚ, 0 ≤ E → (∀ x ∈ dts, 0 ≤ x) →
      run_updates (loop4 d (E - d * ⌊E / d⌋) (⌊E / d⌋ % 4)) dts =
      loop4 d ((E + dts.sum) - d * ⌊(E + dts.sum) / d⌋) (⌊(E + dts.sum) / d⌋ % 4) := by
  induction dts with
  | nil =>
    intro E hE _
    simp
  | cons a t ih =>
    intro E hE hnn
    have ha : 0 ≤ a := hnn a (List.mem_cons_self a t)
    have hfrac0 : 0 ≤ E - d * ⌊E / d⌋ := by
      have h1 : ((⌊E / d⌋ : ℤ) : ℚ) ≤ E / d := Int.floor_le _
      have h2 : d * ((⌊E / d⌋ : ℤ) : ℚ) ≤ d * (E / d) :=
        mul_le_mul_of_nonneg_left h1 hd.le
      have h3 : d * (E / d) = E := by field_simp
      linarith
    rw [run_updates_cons]
    rw [update_loop4 d hd _ _ a (Int.emod_nonneg _ (by norm_num))
      (Int.emod_lt_of_pos _ (by norm_num)) hfrac0 ha]
    have hq : ⌊(E - d * ⌊E / d⌋ + a) / d⌋ = ⌊(E + a) / d⌋ - ⌊E / d⌋ := by
      have hdiv : (E - d * ⌊E / d⌋ + a) / d = (E + a) / d - (⌊E / d⌋ : ℤ) := by
        field_simp
        ring
      rw [hdiv, Int.floor_sub_int]
    have he_eq : E - d * ⌊E / d⌋ + a - d * ((⌊(E + a) / d⌋ : ℚ) - (⌊E / d⌋ : ℚ)) =
        (E + a) - d * (⌊(E + a) / d⌋ : ℚ) := by ring
    have hf_eq : ⌊E / d⌋ % 4 + (⌊(E + a) / d⌋ - ⌊E / d⌋) = ⌊(E + a) / d⌋ % 4 + 4 * (⌊(E + a) / d⌋ / 4 - ⌊E / d⌋ / 4) := by
      omega
    have hstate : loop4 d (E - d * ⌊E / d⌋ + a - d * ↑(⌊(E - d * ⌊E / d⌋ + a) / d⌋))
          ((⌊E / d⌋ % 4 + ⌊(E - d * ⌊E / d⌋ + a) / d⌋) % 4) =
        loop4 d ((E + a) - d * ⌊(E + a) / d⌋) (⌊(E + a) / d⌋ % 4) := by
      rw [hq]
      congr 1
      · push_cast
        rw [he_eq]
      · omega
    rw [hstate]
    have hsum_eq : E + (a :: t).sum = (E + a) + t.sum := by
      rw [List.sum_cons]; ring
    rw [hsum_eq]
    exact ih (E + a) (by linarith) fun x hx => hnn x (List.mem_cons_of_mem a hx)

/-- Advancing a fresh one-shot clip by more than its total duration in
a single update finishes it on the last frame. -/
theorem update_oneshot (D : List ℚ) (hpos : ∀ x ∈ D, 0 < x) (hne : D ≠ [])
    (dt : ℚ) (hdt : D.sum < dt) :
    update dt (oneshot D 0 0) = oneshot_done D (dt - D.sum) := by
  have hlen : 0 < D.length := List.length_pos.mpr hne
  have hdmin_pos : 0 < min_duration (oneshot D 0 0) := by
    refine foldr_min_pos _ fun x hx => hpos x ?_
    simpa [oneshot] using hx
  have hsum_nonneg : 0 ≤ D.sum := List.sum_nonneg fun x hx => (hpos x hx).le
  have hcard : (D.length : ℚ) * min_duration (oneshot D 0 0) ≤ D.sum := by
    have hmem : ∀ x ∈ D, min_duration (oneshot D 0 0) ≤ x := fun x hx =>
      foldr_min_le D x hx
    have := List.card_nsmul_le_sum D (min_duration (oneshot D 0 0)) hmem
    simpa [nsmul_eq_mul] using this
  have hflen : (D.length : ℚ) < dt / min_duration (oneshot D 0 0) := by
    rw [lt_div_iff₀ hdmin_pos]
    calc (D.length : ℚ) * min_duration (oneshot D 0 0) ≤ D.sum := hcard
    _ < dt := hdt
  have hceil : (D.length : ℤ) < Int.ceil (dt / min_duration (oneshot D 0 0)) := by
    rw [Int.lt_ceil]
    exact_mod_cast hflen
  have htn : (D.length : ℤ) < ((Int.ceil (dt / min_duration (oneshot D 0 0))).toNat : ℤ) :=
    lt_of_lt_of_le hceil (Int.self_le_toNat _)
  have hfuel : D.length ≤ (Int.ceil (dt / min_duration (oneshot D 0 0))).toNat + 1 := by
    omega
  have hbody : update dt (oneshot D 0 0) =
      drain ((Int.ceil ((0 + dt) / min_duration (oneshot D 0 0))).toNat + 1)
        (oneshot D (0 + dt) 0) := by
    unfold update
    rw [if_neg (by simp [oneshot]),
      if_neg (by simp [oneshot, List.length_eq_zero]; exact hne)]
    rfl
  rw [hbody]
  simp only [zero_add]
  have hmain := drain_oneshot D hpos
    ((Int.ceil (dt / min_duration (oneshot D 0 0))).toNat + 1) 0 dt hlen
    (by simpa using hfuel) (by simpa using hdt)
  simpa using hmain

/-- `C5`: playing a uniform-duration 4-frame looping clip for exactly
four frame-durations of total time, split arbitrarily into non-negative
updates, returns the index to the starting frame (with no leftover
frame time); advancing a non-looping, non-pingpong clip by more than
its total duration leaves it clamped on the last frame with
`finished = true` and `playing = false`, after which any further
sequence of updates leaves the state exactly unchanged. -/
theorem animation_roundtrip_spec
    (d : ℚ) (hd : 0 < d) (dts : List ℚ)
    (hnn : ∀ x ∈ dts, 0 ≤ x) (hsum : dts.sum = 4 * d)
    (D : List ℚ) (hpos : ∀ x ∈ D, 0 < x) (hne : D ≠ [])
    (dt : ℚ) (hdt : D.sum < dt) (more : List ℚ) :
    (run_updates (loop4 d 0 0) dts).current_frame = 0 ∧
    (run_updates (loop4 d 0 0) dts).elapsed = 0 ∧
    (update dt (oneshot D 0 0)).current_frame = (D.length : ℤ) - 1 ∧
    (update dt (oneshot D 0 0)).finished = true ∧
    (update dt (oneshot D 0 0)).playing = false ∧
    (update dt (oneshot D 0 0)).run_updates more = update dt (oneshot D 0 0) := by
  have h0 : loop4 d (0 - d * ⌊(0 : ℚ) / d⌋) (⌊(0 : ℚ) / d⌋ % 4) = loop4 d 0 0 := by
    norm_num
  have hrun := run_updates_loop4 d hd dts 0 le_rfl hnn
  rw [h0, hsum] at hrun
  have hdiv : (0 + 4 * d) / d = ((4 : ℤ) : ℚ) := by
    push_cast
    field_simp
  rw [hdiv, Int.floor_intCast] at hrun
  have hclean : loop4 d (0 + 4 * d - d * ((4 : ℤ) : ℚ)) ((4 : ℤ) % 4) = loop4 d 0 0 := by
    have h1 : (0 : ℚ) + 4 * d - d * ((4 : ℤ) : ℚ) = 0 := by push_cast; ring
    have h2 : ((4 : ℤ) % 4) = 0 := by decide
    rw [h1, h2]
  rw [hclean] at hrun
  have hupd := update_oneshot D hpos hne dt hdt
  refine ⟨by rw [hrun]; rfl, by rw [hrun]; rfl, by rw [hupd]; rfl,
    by rw [hupd]; rfl, by rw [hupd]; rfl, ?_⟩
  rw [hupd]
  exact run_updates_finished more _ rfl

/-- Witness for `animation_roundtrip_spec`: a 4-frame looping clip with
frame duration 1/2 played for 1+1 = 4·(1/2) seconds lands back on frame
0, and a 2-frame one-shot clip of total duration 2 advanced by 3
seconds finishes. -/
theorem animation_roundtrip_witness :
    (run_updates (loop4 (1/2) 0 0) [1, 1]).current_frame = 0 ∧
    (update 3 (oneshot [1, 1] 0 0)).finished = true := by
  have h := animation_roundtrip_spec (1/2) (by norm_num) [1, 1]
    (by intro x hx; fin_cases hx <;> norm_num)
    (by norm_num)
    [1, 1] (by intro x hx; fin_cases hx <;> norm_num) (by simp)
    3 (by norm_num) [1]
  exact ⟨h.1, h.2.2.2.1⟩

end Animation

/-! ### TransitionManager — src/transition.py

The pygame surfaces and decoded video frames are modelled by the path
they were loaded from; callbacks are modelled by presence flags, with
their invocations reported through the `state_changed` / `completed`
fields of the update result (the code invokes the callback exactly when
it sets the corresponding flag and the callback is non-null).  The
filesystem and OpenCV are modelled by an explicit environment. -/

inductive TransitionType
  | fade_color | fade_video | fade_image
  | slide_left | slide_right | slide_up | slide_down
  | wipe_left | wipe_right
  | circle_expand | circle_contract
  deriving Repr, DecidableEq

namespace TransitionType

/-- Whether the value of the enum member contains "SLIDE" when
upper-cased (`"SLIDE" in transition_type.value.upper()`). -/
def is_slide : TransitionType → Bool
  | slide_left | slide_right | slide_up | slide_down => true
  | _ => false

/-- Whether the value contains "CIRCLE" when upper-cased. -/
def is_circle : TransitionType → Bool
  | circle_expand | circle_contract => true
  | _ => false

end TransitionType

/-- External services used by `_configure_content`: `os.path.exists`,
availability of the `cv2` import, and whether
`cv2.VideoCapture(path).isOpened()` succeeds. -/
structure TransitionEnv where
  path_exists : String → Bool
  cv2_available : Bool
  video_opens : String → Bool

/-- The `**kwargs` of `start_transition` that `_configure_content`
reads.  `none` models an absent key; the empty string models a present
but falsy path (Python tests paths with `if not path`). -/
structure StartParams where
  color : Option (ℤ × ℤ × ℤ) := none
  video_path : Option String := none
  video_speed : Option ℚ := none
  video_loop : Option Bool := none
  image_path : Option String := none
  surface : Option String := none
  center : Option (ℤ × ℤ) := none

structure TransitionManager where
  width : ℤ
  height : ℤ
  default_speed : ℚ
  active : Bool
  phase : String
  progress : ℚ
  speed : ℚ
  target_state : Option String
  has_complete_callback : Bool
  has_state_change_callback : Bool
  transition_type : TransitionType
  fade_color : ℤ × ℤ × ℤ
  video_cap : Option String
  image_surface : Option String
  slide_offset : ℚ
  circle_radius : ℚ
  video_speed_multiplier : ℚ
  video_loop : Bool
  circle_center : Option (ℤ × ℤ)
  easing : String
  deriving Repr, DecidableEq

namespace TransitionManager

/-- `TransitionManager.__init__`. -/
def init (w h : ℤ) (default_speed : ℚ) (vsm : ℚ) (vloop : Bool) : TransitionManager :=
  { width := w, height := h, default_speed := default_speed
    active := false, phase := "none", progress := 0, speed := default_speed
    target_state := none, has_complete_callback := false
    has_state_change_callback := false
    transition_type := TransitionType.fade_color, fade_color := (0, 0, 0)
    video_cap := none, image_surface := none, slide_offset := 0
    circle_radius := 0, video_speed_multiplier := vsm, video_loop := vloop
    circle_center := none, easing := "linear" }

/-- `TransitionManager._configure_content`: returns the mutated state
and the boolean result.  Validation failures return `false` without
further mutation (the `try/except` also returns `false` on loader
exceptions; loaders are modelled as total here). -/
def _configure_content (env : TransitionEnv) (p : StartParams)
    (s : TransitionManager) : TransitionManager × Bool :=
  match s.transition_type with
  | TransitionType.fade_color =>
    ({ s with fade_color := p.color.getD (0, 0, 0) }, true)
  | TransitionType.fade_video =>
    match p.video_path with
    | none => (s, false)
    | some path =>
      if path = "" then (s, false)
      else if ¬ env.path_exists path then (s, false)
      else if ¬ env.cv2_available then (s, false)
      else if ¬ env.video_opens path then (s, false)
      else
        ({ s with video_cap := some path
                  video_speed_multiplier := p.video_speed.getD 2
                  video_loop := p.video_loop.getD true }, true)
  | TransitionType.fade_image =>
    match p.image_path with
    | none => (s, false)
    | some path =>
      if path = "" then (s, false)
      else if ¬ env.path_exists path then (s, false)
      else ({ s with image_surface := some path }, true)
  | t =>
    if t.is_slide then
      let s1 := { s with fade_color := p.color.getD (0, 0, 0) }
      match p.surface with
      | some surf => ({ s1 with image_surface := some surf }, true)
      | none => (s1, true)
    else if t.is_circle then
      ({ s with fade_color := p.color.getD (0, 0, 0)
                circle_center := some (p.center.getD (s.width / 2, s.height / 2)) }, true)
    else
      (s, true)

/-- The easing-name resolution
`getattr(self, f"_{easing}_ease", self._linear_ease)`. -/
def resolve_easing (easing : String) : String :=
  if easing = "linear" ∨ easing = "ease_in" ∨ easing = "ease_out" ∨
      easing = "ease_in_out" then easing else "linear"

/-- `TransitionManager.start_transition`. -/
def start_transition (env : TransitionEnv) (target : Option String)
    (ttype : TransitionType) (speed : Option ℚ)
    (has_cb has_scb : Bool) (easing : String) (p : StartParams)
    (s : TransitionManager) : TransitionManager × Bool :=
  if s.active then (s, false)
  else
    let s1 := { s with
      active := true, target_state := target, transition_type := ttype
      speed := speed.getD s.default_speed
      has_complete_callback := has_cb, has_state_change_callback := has_scb
      progress := 0, slide_offset := 0, circle_radius := 0
      easing := resolve_easing easing
      phase := "in" }
    _configure_content env p s1

/-- The status record returned by `TransitionManager.update`.  The
`phase` and `active` entries are filled from the state at entry and are
not refreshed afterwards (only `state_changed`, `completed` and
`progress` are updated before returning). -/
structure UpdateResult where
  active : Bool
  state_changed : Bool
  completed : Bool
  phase : String
  progress : ℚ
  deriving Repr, DecidableEq

/-- `TransitionManager.update`.  `_update_content` (video-frame decode)
is elided: it touches only the decoded frame, never `active`, `phase`
or `progress`.  `_complete_transition` is inlined in the completion
branch. -/
def update (dt : ℚ) (s : TransitionManager) : TransitionManager × UpdateResult :=
  let base : UpdateResult :=
    { active := s.active, state_changed := false, completed := false
      phase := s.phase, progress := s.progress }
  if s.active = false then (s, base)
  else
    let s1 := { s with progress := s.progress + s.speed / 255 * dt }
    if s1.phase = "in" then
      if s1.progress ≥ 1/2 then
        ({ s1 with phase := "out" },
         { base with state_changed := true, progress := s1.progress })
      else (s1, { base with progress := s1.progress })
    else if s1.phase = "out" then
      if s1.progress ≥ 1 then
        ({ s1 with active := false, phase := "complete", progress := 1
                   video_cap := none },
         { base with completed := true, progress := 1 })
      else (s1, { base with progress := s1.progress })
    else (s1, { base with progress := s1.progress })

/-- Result trace of a sequence of updates. -/
def run_results (s : TransitionManager) : List ℚ → List UpdateResult
  | [] => []
  | d :: t => (update d s).2 :: run_results (update d s).1 t

/-- `_configure_content` never writes the `active` flag. -/
theorem configure_content_active (env : TransitionEnv) (p : StartParams)
    (s : TransitionManager) : ((_configure_content env p s).1).active = s.active := by
  unfold _configure_content
  split
  · rfl
  · split
    · rfl
    · split_ifs <;> rfl
  · split
    · rfl
    · split_ifs <;> rfl
  · split_ifs
    · split <;> rfl
    · rfl
    · rfl

/-- `start_transition` called on an active machine returns the state
untouched together with `false`. -/
theorem start_on_active (env : TransitionEnv) (target : Option String)
    (ttype : TransitionType) (speed : Option ℚ) (cb scb : Bool)
    (easing : String) (p : StartParams) (s : TransitionManager)
    (h : s.active = true) :
    s.start_transition env target ttype speed cb scb easing p = (s, false) := by
  unfold start_transition
  rw [if_pos h]

/-- Counterexample to `C3` as stated: a `FADE_IMAGE` start with no
`image_path` returns `false`, but the machine is left ACTIVE
(`start_transition` sets `self.active = True` before `_configure_content`
runs and never rolls it back on failure). -/
theorem start_failure_counterexample :
    (((TransitionManager.init 800 600 300 1 true).start_transition
        ⟨fun _ => false, false, fun _ => false⟩ (some "menu")
        TransitionType.fade_image none false false "linear" {}).2 = false) ∧
    (((TransitionManager.init 800 600 300 1 true).start_transition
        ⟨fun _ => false, false, fun _ => false⟩ (some "menu")
        TransitionType.fade_image none false false "linear" {}).1.active = true) :=
  ⟨rfl, rfl⟩

/-- `C3` (amended): when kind-specific validation fails, `start_transition`
on an inactive machine returns `false`, but the machine is left ACTIVE
(`active = true`), so every later `start_transition` call also returns
`false` (until `clear()` resets it). -/
theorem start_failure_leaves_active (env : TransitionEnv)
    (target : Option String) (ttype : TransitionType) (speed : Option ℚ)
    (cb scb : Bool) (easing : String) (p : StartParams)
    (s : TransitionManager) (hact : s.active = false)
    (hfail : (s.start_transition env target ttype speed cb scb easing p).2 = false) :
    (s.start_transition env target ttype speed cb scb easing p).1.active = true ∧
    (∀ (env2 : TransitionEnv) (target2 : Option String) (ttype2 : TransitionType)
       (speed2 : Option ℚ) (cb2 scb2 : Bool) (easing2 : String) (p2 : StartParams),
      ((s.start_transition env target ttype speed cb scb easing p).1.start_transition
        env2 target2 ttype2 speed2 cb2 scb2 easing2 p2).2 = false) := by
  have hstart : s.start_transition env target ttype speed cb scb easing p =
      _configure_content env p
        { s with
          active := true, target_state := target, transition_type := ttype
          speed := speed.getD s.default_speed
          has_complete_callback := cb, has_state_change_callback := scb
          progress := 0, slide_offset := 0, circle_radius := 0
          easing := resolve_easing easing
          phase := "in" } := by
    unfold start_transition
    rw [if_neg (by rw [hact]; exact Bool.false_ne_true)]
  have hactive : (s.start_transition env target ttype speed cb scb easing p).1.active = true := by
    rw [hstart, configure_content_active]
  refine ⟨hactive, ?_⟩
  intro env2 target2 ttype2 speed2 cb2 scb2 easing2 p2
  rw [start_on_active env2 target2 ttype2 speed2 cb2 scb2 easing2 p2 _ hactive]

/-- Witness for `start_failure_leaves_active` at the counterexample
input. -/
theorem start_failure_leaves_active_witness :
    ((TransitionManager.init 800 600 300 1 true).start_transition
      ⟨fun _ => false, false, fun _ => false⟩ (some "menu")
      TransitionType.fade_image none false false "linear" {}).1.active = true :=
  (start_failure_leaves_active ⟨fun _ => false, false, fun _ => false⟩
    (some "menu") TransitionType.fade_image none false false "linear" {}
    (TransitionManager.init 800 600 300 1 true) rfl rfl).1

/-- Updates on an inactive machine change nothing and report no
events. -/
theorem update_inactive (dt : ℚ) (s : TransitionManager)
    (h : s.active = false) :
    update dt s = (s, { active := s.active, state_changed := false
                        completed := false, phase := s.phase
                        progress := s.progress }) := by
  unfold update
  rw [if_pos h]

/-- No event flag is ever reported by a trace run from an inactive
machine. -/
theorem run_results_inactive (dts : List ℚ) (s : TransitionManager)
    (h : s.active = false) :
    ∀ r ∈ run_results s dts, r.state_changed = false ∧ r.completed = false := by
  induction dts with
  | nil => intro r hr; cases hr
  | cons d t ih =>
    intro r hr
    rw [run_results, update_inactive d s h] at hr
    rcases List.mem_cons.mp hr with h1 | h1
    · subst h1; exact ⟨rfl, rfl⟩
    · exact ih r (by simpa using h1)

/-- Evaluation of `update` on an active machine in the `out` phase. -/
theorem update_out (dt : ℚ) (s : TransitionManager)
    (hact : s.active = true) (hph : s.phase = "out") :
    update dt s =
      if s.progress + s.speed / 255 * dt ≥ 1 then
        ({ s with progress := 1, active := false, phase := "complete"
                  video_cap := none },
         { active := true, state_changed := false, completed := true
           phase := "out", progress := 1 })
      else
        ({ s with progress := s.progress + s.speed / 255 * dt },
         { active := true, state_changed := false, completed := false
           phase := "out", progress := s.progress + s.speed / 255 * dt }) := by
  unfold update
  simp [hact, hph]

/-- Evaluation of `update` on an active machine in the `in` phase. -/
theorem update_in (dt : ℚ) (s : TransitionManager)
    (hact : s.active = true) (hph : s.phase = "in") :
    update dt s =
      if s.progress + s.speed / 255 * dt ≥ 1/2 then
        ({ s with progress := s.progress + s.speed / 255 * dt, phase := "out" },
         { active := true, state_changed := true, completed := false
           phase := "in", progress := s.progress + s.speed / 255 * dt })
      else
        ({ s with progress := s.progress + s.speed / 255 * dt },
         { active := true, state_changed := false, completed := false
           phase := "in", progress := s.progress + s.speed / 255 * dt }) := by
  unfold update
  simp [hact, hph]

/-- From the `out` phase, a trace reports no state change and at most
one completion. -/
theorem run_results_out_counts (dts : List ℚ) :
    ∀ s : TransitionManager, s.active = true → s.phase = "out" →
      (run_results s dts).countP (fun r => r.state_changed) = 0 ∧
      (run_results s dts).countP (fun r => r.completed) ≤ 1 := by
  induction dts with
  | nil => intro s _ _; simp [run_results]
  | cons d t ih =>
    intro s hact hph
    rw [run_results, update_out d s hact hph]
    by_cases hc : s.progress + s.speed / 255 * d ≥ 1
    · rw [if_pos hc]
      have h2 : ({ s with progress := 1, active := false, phase := "complete", video_cap := none } : TransitionManager).active = false := rfl
      have hsc : (run_results { s with progress := 1, active := false, phase := "complete", video_cap := none } t).countP
            (fun r => r.state_changed) = 0 :=
        List.countP_eq_zero.mpr fun r hr => by
          simp [(run_results_inactive t _ h2 r hr).1]
      have hcp : (run_results { s with progress := 1, active := false, phase := "complete", video_cap := none } t).countP
            (fun r => r.completed) = 0 :=
        List.countP_eq_zero.mpr fun r hr => by
          simp [(run_results_inactive t _ h2 r hr).2]
      simp [List.countP_cons, hsc, hcp]
    · rw [if_neg hc]
      have ihr := ih { s with progress := s.progress + s.speed / 255 * d }
        (by simpa using hact) (by simpa using hph)
      simp only [List.countP_cons]
      constructor
      · simp [ihr.1]
      · simpa using ihr.2

/-- From the `in` phase, a trace reports at most one state change and
at most one completion. -/
theorem run_results_in_counts (dts : List ℚ) :
    ∀ s : TransitionManager, s.active = true → s.phase = "in" →
      (run_results s dts).countP (fun r => r.state_changed) ≤ 1 ∧
      (run_results s dts).countP (fun r => r.completed) ≤ 1 := by
  induction dts with
  | nil => intro s _ _; simp [run_results]
  | cons d t ih =>
    intro s hact hph
    rw [run_results, update_in d s hact hph]
    by_cases hc : s.progress + s.speed / 255 * d ≥ 1/2
    · rw [if_pos hc]
      have hout := run_results_out_counts t
        { s with progress := s.progress + s.speed / 255 * d, phase := "out" }
        (by simpa using hact) rfl
      simp only [List.countP_cons]
      constructor
      · simp [hout.1]
      · simpa using hout.2
    · rw [if_neg hc]
      have ihr := ih { s with progress := s.progress + s.speed / 255 * d }
        (by simpa using hact) (by simpa using hph)
      simp only [List.countP_cons]
      constructor
      · simpa using ihr.1
      · simpa using ihr.2

/-- `C4`: over any trace of non-negative updates from a successfully
started transition (active, phase `in`), the state-change flag — which
is reported exactly when the state-change callback is invoked — is
raised on an update precisely when that update carries the accumulated
progress to 1/2 while the phase is `in` (after which the phase is
`out`), and it is raised at most once over the whole trace; the
completion flag is raised precisely when an update carries progress to
1.0 while the phase is `out` (after which the machine is inactive), and
at most once per trace; and `start_transition` called while the machine
is active returns `false` with the entire in-flight state (phase,
progress, callbacks, target) untouched. -/
theorem transition_update_spec (s t : TransitionManager)
    (dts : List ℚ) (dt : ℚ)
    (hact : s.active = true) (hph : s.phase = "in")
    (tact : t.active = true) (tph : t.phase = "out") :
    (∀ (env : TransitionEnv) (target : Option String) (ttype : TransitionType)
       (speed : Option ℚ) (cb scb : Bool) (easing : String) (p : StartParams),
      s.start_transition env target ttype speed cb scb easing p = (s, false)) ∧
    (run_results s dts).countP (fun r => r.state_changed) ≤ 1 ∧
    (run_results s dts).countP (fun r => r.completed) ≤ 1 ∧
    ((update dt s).2.state_changed = true ↔
      s.progress + s.speed / 255 * dt ≥ 1/2) ∧
    ((update dt s).2.state_changed = true →
      (update dt s).1.phase = "out" ∧ (update dt s).1.active = true) ∧
    ((update dt s).2.state_changed = false →
      (update dt s).1.phase = "in" ∧ (update dt s).1.active = true) ∧
    (update dt s).2.completed = false ∧
    ((update dt t).2.completed = true ↔ t.progress + t.speed / 255 * dt ≥ 1) ∧
    ((update dt t).2.completed = true →
      (update dt t).1.active = false ∧ (update dt t).1.phase = "complete") ∧
    (update dt t).2.state_changed = false := by
  have hcounts := run_results_in_counts dts s hact hph
  have hin := update_in dt s hact hph
  have hout := update_out dt t tact tph
  refine ⟨fun env target ttype speed cb scb easing p =>
    start_on_active env target ttype speed cb scb easing p s hact,
    hcounts.1, hcounts.2, ?_, ?_, ?_, ?_, ?_, ?_, ?_⟩
  · rw [hin]
    by_cases hc : s.progress + s.speed / 255 * dt ≥ 1/2
    · rw [if_pos hc]; exact iff_of_true rfl hc
    · rw [if_neg hc]; exact iff_of_false (by simp) hc
  · rw [hin]
    by_cases hc : s.progress + s.speed / 255 * dt ≥ 1/2
    · rw [if_pos hc]; intro _; exact ⟨rfl, by simpa using hact⟩
    · rw [if_neg hc]; intro hfalse; simp at hfalse
  · rw [hin]
    by_cases hc : s.progress + s.speed / 255 * dt ≥ 1/2
    · rw [if_pos hc]; intro hfalse; simp at hfalse
    · rw [if_neg hc]; intro _; exact ⟨by simpa using hph, by simpa using hact⟩
  · rw [hin]
    by_cases hc : s.progress + s.speed / 255 * dt ≥ 1/2
    · rw [if_pos hc]
    · rw [if_neg hc]
  · rw [hout]
    by_cases hc : t.progress + t.speed / 255 * dt ≥ 1
    · rw [if_pos hc]; exact iff_of_true rfl hc
    · rw [if_neg hc]; exact iff_of_false (by simp) hc
  · rw [hout]
    by_cases hc : t.progress + t.speed / 255 * dt ≥ 1
    · rw [if_pos hc]; intro _; exact ⟨rfl, rfl⟩
    · rw [if_neg hc]; intro hfalse; simp at hfalse
  · rw [hout]
    by_cases hc : t.progress + t.speed / 255 * dt ≥ 1
    · rw [if_pos hc]
    · rw [if_neg hc]

/-- Witness for `transition_update_spec` on a concrete mid-flight
transition: speed 255, phase `in` at progress 0.3, one update of 0.25
does not reach 0.5 (no state change), and an `out`-phase machine at
progress 0.9 completes on an update of 0.2. -/
theorem transition_update_spec_witness :
    (TransitionManager.update (1/4)
      { width := 800, height := 600, default_speed := 300, active := true
        phase := "in", progress := 3/10, speed := 255, target_state := some "playing"
        has_complete_callback := true, has_state_change_callback := true
        transition_type := TransitionType.fade_color, fade_color := (0, 0, 0)
        video_cap := none, image_surface := none, slide_offset := 0
        circle_radius := 0, video_speed_multiplier := 1, video_loop := true
        circle_center := none, easing := "linear" }).2.completed = false ∧
    (TransitionManager.update (1/5)
      { width := 800, height := 600, default_speed := 300, active := true
        phase := "out", progress := 9/10, speed := 255, target_state := some "playing"
        has_complete_callback := true, has_state_change_callback := true
        transition_type := TransitionType.fade_color, fade_color := (0, 0, 0)
        video_cap := none, image_surface := none, slide_offset := 0
        circle_radius := 0, video_speed_multiplier := 1, video_loop := true
        circle_center := none, easing := "linear" }).2.completed = true := by
  have h := transition_update_spec
    { width := 800, height := 600, default_speed := 300, active := true
      phase := "in", progress := 3/10, speed := 255, target_state := some "playing"
      has_complete_callback := true, has_state_change_callback := true
      transition_type := TransitionType.fade_color, fade_color := (0, 0, 0)
      video_cap := none, image_surface := none, slide_offset := 0
      circle_radius := 0, video_speed_multiplier := 1, video_loop := true
      circle_center := none, easing := "linear" }
    { width := 800, height := 600, default_speed := 300, active := true
      phase := "out", progress := 9/10, speed := 255, target_state := some "playing"
      has_complete_callback := true, has_state_change_callback := true
      transition_type := TransitionType.fade_color, fade_color := (0, 0, 0)
      video_cap := none, image_surface := none, slide_offset := 0
      circle_radius := 0, video_speed_multiplier := 1, video_loop := true
      circle_center := none, easing := "linear" }
    [] (1/4) rfl rfl rfl rfl
  have h2 := transition_update_spec
    { width := 800, height := 600, default_speed := 300, active := true
      phase := "in", progress := 3/10, speed := 255, target_state := some "playing"
      has_complete_callback := true, has_state_change_callback := true
      transition_type := TransitionType.fade_color, fade_color := (0, 0, 0)
      video_cap := none, image_surface := none, slide_offset := 0
      circle_radius := 0, video_speed_multiplier := 1, video_loop := true
      circle_center := none, easing := "linear" }
    { width := 800, height := 600, default_speed := 300, active := true
      phase := "out", progress := 9/10, speed := 255, target_state := some "playing"
      has_complete_callback := true, has_state_change_callback := true
      transition_type := TransitionType.fade_color, fade_color := (0, 0, 0)
      video_cap := none, image_surface := none, slide_offset := 0
      circle_radius := 0, video_speed_multiplier := 1, video_loop := true
      circle_center := none, easing := "linear" }
    [] (1/5) rfl rfl rfl rfl
  refine ⟨h.2.2.2.2.2.2.1, ?_⟩
  have := h2.2.2.2.2.2.2.2.1
  rw [this]
  norm_num

end TransitionManager

/-! ### StealthGame — src/Stealth Game.py (with src/guard.py, src/button.py)

The mission simulation.  Presentation-only fields (fonts, toasts,
particles, animated display values, blink timers, feedback messages,
end-screen animations, audio) are elided: they neither read nor write
the detection/objective/credit state.  Randomness is passed in as an
oracle per update call; a `random.random() < p` draw with `0 < p < 1`
is modelled as an unconstrained boolean. -/

/-- Python float modulo for a positive modulus
(`a % b = a - b * floor(a / b)`). -/
def pyMod (a b : ℚ) : ℚ := a - b * ⌊a / b⌋

/-- src/guard.py: the patrol state of one guard (field-of-view and
animation bookkeeping elided; the stealth game reads only `position`
and `alert`). -/
structure Guard where
  patrol_time : ℚ
  current_time : ℚ
  position : ℚ
  alert : Bool
  alert_time : ℚ
  deriving Repr, DecidableEq

namespace Guard

/-- `Guard.update`: advance the patrol clock and derive the normalized
position; tick the alert timer while alerted (the flash boolean it
derives is presentation-only). -/
def update (dt : ℚ) (g : Guard) : Guard :=
  let t := g.current_time + dt
  { g with
    current_time := t
    position := pyMod t g.patrol_time / g.patrol_time
    alert_time := if g.alert then g.alert_time + dt else g.alert_time }

end Guard

/-- src/button.py: cooldown state of an action button (hover/press
animation fields elided; `is_clicked` requires `active`). -/
structure Button where
  cooldown : ℚ
  max_cooldown : ℚ
  active : Bool
  deriving Repr, DecidableEq

namespace Button

/-- A freshly constructed button (`Button.__init__`). -/
def init : Button := { cooldown := 0, max_cooldown := 0, active := true }

/-- The cooldown part of `Button.update`. -/
def update (dt : ℚ) (b : Button) : Button :=
  if b.cooldown > 0 then
    let c := b.cooldown - dt
    if c ≤ 0 then { cooldown := 0, max_cooldown := 0, active := true }
    else { cooldown := c, max_cooldown := b.max_cooldown, active := false }
  else { b with active := true }

/-- `Button.set_cooldown` (note: does not clear `active`). -/
def set_cooldown (ct : ℚ) (b : Button) : Button :=
  { b with cooldown := ct, max_cooldown := ct }

end Button

/-- An active security event (`trigger_random_event` record). -/
structure SecurityEvent where
  duration : ℚ
  instant : ℤ
  dps : ℚ
  time_left : ℚ
  deriving Repr, DecidableEq

/-- A transient secondary objective. -/
structure SecondaryObjective where
  x : ℤ
  y : ℤ
  reward : ℤ
  time_left : ℚ
  active : Bool
  deriving Repr, DecidableEq

/-- The random draws consumed by one `StealthGame.update` call:
the 2% secondary-objective spawn roll and its randomized payload, the
per-guard detection rolls, and the event-table choice with its
`randint` jolt. -/
structure UpdateOracle where
  spawn_roll : Bool
  spawn_obj : SecondaryObjective
  guard_rolls : ℕ → Bool
  event_choice : Fin 3
  event_instant : ℤ

/-- `trigger_random_event`: the fixed three-entry event table; the
instant jolt of entries 0 and 2 is drawn by `randint` (oracle). -/
def trigger_random_event (choice : Fin 3) (roll : ℤ) : SecurityEvent :=
  match choice with
  | 0 => { duration := 6, instant := roll, dps := 1, time_left := 6 }
  | 1 => { duration := 8, instant := 0, dps := 1/2, time_left := 8 }
  | 2 => { duration := 5, instant := roll, dps := 3/2, time_left := 5 }

structure StealthGame where
  state : String
  paused : Bool
  time_remaining : ℚ
  detection_level : ℚ
  max_detection : ℚ
  objective_progress : ℤ
  objectives_needed : ℤ
  secondary_objectives : List SecondaryObjective
  perk_cooldown_reduction : ℚ
  perk_camera_disable_bonus : ℚ
  currency : ℤ
  pending_credits : ℤ
  best_objectives : ℤ
  best_time : ℚ
  camera_disabled : Bool
  camera_disable_time : ℚ
  lights_disabled : Bool
  lights_disable_time : ℚ
  event_timer : ℚ
  current_event : Option SecurityEvent
  guards : List Guard
  btn_camera : Button
  btn_lights : Button
  btn_distract : Button
  btn_hack : Button

namespace StealthGame

/-- The mission state right after `reset_game` with the state set to
`"playing"` (the transition's state-change callback).  Guard phases are
randomized by `reset_game`, so they are a parameter. -/
def mission_start (gs : List Guard) (currency : ℤ)
    (perk_cd perk_cam : ℚ) : StealthGame :=
  { state := "playing", paused := false
    time_remaining := 60, detection_level := 0, max_detection := 100
    objective_progress := 0, objectives_needed := 5
    secondary_objectives := []
    perk_cooldown_reduction := perk_cd, perk_camera_disable_bonus := perk_cam
    currency := currency, pending_credits := 0
    best_objectives := 0, best_time := 0
    camera_disabled := false, camera_disable_time := 0
    lights_disabled := false, lights_disable_time := 0
    event_timer := 0, current_event := none
    guards := gs
    btn_camera := Button.init, btn_lights := Button.init
    btn_distract := Button.init, btn_hack := Button.init }

/-- The per-guard danger-zone pass of the update loop: each guard whose
normalized position lies strictly inside (0.4, 0.6) and whose roll
succeeds is set alert; the returned count times 5 is the detection
added.  `i` is the running guard index into the oracle's rolls. -/
def guard_scan (rolls : ℕ → Bool) : ℕ → List Guard → List Guard × ℕ
  | _, [] => ([], 0)
  | i, g :: gs =>
    let r := guard_scan rolls (i + 1) gs
    if 2/5 < g.position ∧ g.position < 3/5 then
      if rolls i then ({ g with alert := true } :: r.1, r.2 + 1)
      else (g :: r.1, r.2)
    else (g :: r.1, r.2)

/-- Frame stage: `self.time_remaining -= dt`. -/
def tick_timers (dt : ℚ) (s : StealthGame) : StealthGame :=
  { s with time_remaining := s.time_remaining - dt }

/-- Frame stage: the 2% secondary-objective spawn roll followed by the
per-objective countdown and expiry removal. -/
def tick_secondary (dt : ℚ) (o : UpdateOracle) (s : StealthGame) : StealthGame :=
  let s : StealthGame := if o.spawn_roll then
      { s with secondary_objectives :=
          s.secondary_objectives ++ [{ o.spawn_obj with active := true }] }
    else s
  let ticked := (s.secondary_objectives.map
    (fun so => { so with time_left := so.time_left - dt })).filter
    (fun so => so.time_left > 0)
  { s with secondary_objectives := ticked }

/-- Frame stage: the four action-button cooldown updates. -/
def tick_buttons (dt : ℚ) (s : StealthGame) : StealthGame :=
  { s with
    btn_camera := s.btn_camera.update dt, btn_lights := s.btn_lights.update dt
    btn_distract := s.btn_distract.update dt, btn_hack := s.btn_hack.update dt }

/-- Frame stage: camera-disable countdown and re-enable. -/
def tick_camera (dt : ℚ) (s : StealthGame) : StealthGame :=
  if s.camera_disable_time > 0 then
    let t := s.camera_disable_time - dt
    if t ≤ 0 then { s with camera_disable_time := t, camera_disabled := false }
    else { s with camera_disable_time := t }
  else s

/-- Frame stage: lights-disable countdown (the flag is cleared only on
a frame whose timer is already non-positive). -/
def tick_lights (dt : ℚ) (s : StealthGame) : StealthGame :=
  if s.lights_disable_time > 0 then
    { s with lights_disable_time := s.lights_disable_time - dt }
  else { s with lights_disabled := false }

/-- Frame stage: guard patrol updates. -/
def tick_guards (dt : ℚ) (s : StealthGame) : StealthGame :=
  { s with guards := s.guards.map (Guard.update dt) }

/-- Frame stage: base detection accrual (`2*dt`, scaled by 0.3 when
cameras are disabled and by 0.5 when lights are disabled). -/
def accrue_base_detection (dt : ℚ) (s : StealthGame) : StealthGame :=
  let base := 2 * dt * (if s.camera_disabled then 3/10 else 1) *
      (if s.lights_disabled then 1/2 else 1)
  { s with detection_level := s.detection_level + base }

/-- Frame stage: the danger-zone guard rolls (+5 detection per
triggered guard, guard set alert). -/
def guard_roll_detection (o : UpdateOracle) (s : StealthGame) : StealthGame :=
  let scan := guard_scan o.guard_rolls 0 s.guards
  { s with guards := scan.1,
           detection_level := s.detection_level + 5 * (scan.2 : ℚ) }

/-- Frame stage: the 5-second event timer and `trigger_random_event`
(the instant jolt is applied immediately). -/
def tick_events (dt : ℚ) (o : UpdateOracle) (s : StealthGame) : StealthGame :=
  let s : StealthGame := { s with event_timer := s.event_timer + dt }
  if s.event_timer ≥ 5 then
    let ev := trigger_random_event o.event_choice o.event_instant
    { s with event_timer := 0,
             detection_level := s.detection_level + (ev.instant : ℚ),
             current_event := some ev }
  else s

/-- Frame stage: damage-per-second and countdown of the active event. -/
def apply_event_dps (dt : ℚ) (s : StealthGame) : StealthGame :=
  match s.current_event with
  | some ev =>
    let s : StealthGame :=
      { s with detection_level := s.detection_level + ev.dps * dt }
    let tl := ev.time_left - dt
    if tl ≤ 0 then { s with current_event := none }
    else { s with current_event := some { ev with time_left := tl } }
  | none => s

/-- The body of `StealthGame.update` on the playing path, up to (and
excluding) the end-of-frame detection clamp and win/loss check: the
stages above in source order. -/
def update_playing_body (dt : ℚ) (o : UpdateOracle) (s : StealthGame) : StealthGame :=
  apply_event_dps dt (tick_events dt o (guard_roll_detection o
    (accrue_base_detection dt (tick_guards dt (tick_lights dt
      (tick_camera dt (tick_buttons dt (tick_secondary dt o
        (tick_timers dt s)))))))))

/-- The end-of-frame detection clamp
(`detection_level = max(0, min(detection_level, max_detection))`). -/
def clamp_detection (s : StealthGame) : StealthGame :=
  { s with detection_level := max 0 (min s.detection_level s.max_detection) }

/-- The win/loss evaluation at the end of a playing frame: success
(objective progress reached) is tested first; otherwise failure
(detection maxed or time out). -/
def check_win_loss (s : StealthGame) : StealthGame :=
  if s.objective_progress ≥ s.objectives_needed then
    let s := if s.objective_progress > s.best_objectives
      then { s with best_objectives := s.objective_progress } else s
    let s := if s.time_remaining > s.best_time
      then { s with best_time := s.time_remaining } else s
    let s := if s.pending_credits > 0 then
        { s with currency := s.currency + s.pending_credits, pending_credits := 0 }
      else s
    { s with state := "success" }
  else if s.detection_level ≥ s.max_detection ∨ s.time_remaining ≤ 0 then
    { s with state := "failure", pending_credits := 0 }
  else s

/-- `StealthGame.update`.  A frame with an active transition returns
before touching the simulation; menu, non-playing and paused frames
return after presentation-only work. -/
def update (dt : ℚ) (o : UpdateOracle) (transition_active : Bool)
    (s : StealthGame) : StealthGame :=
  if transition_active then s
  else if s.state = "menu" then s
  else if s.state ≠ "playing" ∨ s.paused then s
  else check_win_loss (clamp_detection (update_playing_body dt o s))

/-- The hack success probability
(`max(0.4, 0.85 - detection_level / 120.0)`). -/
def hack_success_chance (d : ℚ) : ℚ := max (2/5) (17/20 - d / 120)

/-- The camera branch of `_handle_game_clicks` (reached only when
`is_clicked` passes, which requires the button to be active). -/
def camera_click (s : StealthGame) : StealthGame :=
  if s.btn_camera.active then
    { s with
      camera_disabled := true
      camera_disable_time := 8 + s.perk_camera_disable_bonus
      btn_camera := s.btn_camera.set_cooldown (max 1 (7 - s.perk_cooldown_reduction))
      detection_level := max 0 (s.detection_level + (-15)) }
  else s

/-- The lights branch of `_handle_game_clicks`. -/
def lights_click (s : StealthGame) : StealthGame :=
  if s.btn_lights.active then
    { s with
      lights_disabled := true
      lights_disable_time := 6
      btn_lights := s.btn_lights.set_cooldown (max 1 (5 - s.perk_cooldown_reduction))
      detection_level := max 0 (s.detection_level + (-10)) }
  else s

/-- The distraction branch of `_handle_game_clicks`. -/
def distract_click (s : StealthGame) : StealthGame :=
  if s.btn_distract.active then
    { s with
      guards := s.guards.map fun g => { g with alert := false }
      detection_level := max 0 (s.detection_level + (-20))
      btn_distract := s.btn_distract.set_cooldown (max 1 (10 - s.perk_cooldown_reduction)) }
  else s

/-- The hack branch of `_handle_game_clicks`: `roll` is the
`random.random()` draw, success iff `roll <= success_chance`. -/
def hack_click (roll : ℚ) (s : StealthGame) : StealthGame :=
  if ¬ s.btn_hack.active then s
  else if s.btn_hack.cooldown > 0 then s
  else if roll ≤ hack_success_chance s.detection_level then
    { s with
      objective_progress := s.objective_progress + 2
      detection_level := max 0 (s.detection_level + 15 * (3/10))
      btn_hack := s.btn_hack.set_cooldown (max 1 (3 - s.perk_cooldown_reduction)) }
  else
    { s with
      detection_level := min s.max_detection (s.detection_level + 15)
      btn_hack := s.btn_hack.set_cooldown (max 2 (5 - s.perk_cooldown_reduction)) }

/-- Collecting the `i`-th secondary objective (the click-radius
geometry is elided; the handler removes the objective and banks the
reward as pending credits). -/
def collect_secondary (i : ℕ) (s : StealthGame) : StealthGame :=
  match s.secondary_objectives.get? i with
  | some so =>
    if so.active then
      { s with secondary_objectives := s.secondary_objectives.eraseIdx i
               pending_credits := s.pending_credits + so.reward }
    else s
  | none => s

/-- Clicking the pause button (`paused = True`). -/
def pause_click (s : StealthGame) : StealthGame := { s with paused := true }

/-- Clicking resume on the pause menu (`paused = False`). -/
def resume_click (s : StealthGame) : StealthGame := { s with paused := false }

/-- One interaction step of a mission play-through: a frame update
(with its random draws and the transition-active flag) or one of the
player inputs. -/
inductive GameStep
  | frame (dt : ℚ) (o : UpdateOracle) (transition_active : Bool)
  | camera
  | lights
  | distract
  | hack (roll : ℚ)
  | collect (i : ℕ)
  | pause
  | resume

def apply_step : GameStep → StealthGame → StealthGame
  | GameStep.frame dt o tr, s => update dt o tr s
  | GameStep.camera, s => camera_click s
  | GameStep.lights, s => lights_click s
  | GameStep.distract, s => distract_click s
  | GameStep.hack roll, s => hack_click roll s
  | GameStep.collect i, s => collect_secondary i s
  | GameStep.pause, s => pause_click s
  | GameStep.resume, s => resume_click s

def run_steps (s : StealthGame) (steps : List GameStep) : StealthGame :=
  steps.foldl (fun t st => apply_step st t) s

/-- An update during an active transition is suppressed entirely. -/
theorem update_transition_suppressed (dt : ℚ) (o : UpdateOracle)
    (s : StealthGame) : update dt o true s = s := rfl

/-- An update while paused (state still `"playing"`) returns before
touching the simulation. -/
theorem update_paused (dt : ℚ) (o : UpdateOracle) (s : StealthGame)
    (hs : s.state = "playing") (hp : s.paused = true) :
    update dt o false s = s := by
  unfold update
  rw [if_neg (by simp), if_neg (by simp [hs]), if_pos (Or.inr (by simp [hp]))]

/-- An unpaused playing update runs the simulation body, clamps the
detection level and evaluates win/loss. -/
theorem update_playing_eq (dt : ℚ) (o : UpdateOracle) (s : StealthGame)
    (hs : s.state = "playing") (hp : s.paused = false) :
    update dt o false s =
      check_win_loss (clamp_detection (update_playing_body dt o s)) := by
  unfold update
  rw [if_neg (by simp), if_neg (by simp [hs]),
    if_neg (by simp [hs, hp])]

/-- `check_win_loss` never changes the detection level or the maximum. -/
theorem check_win_loss_detection (s : StealthGame) :
    (check_win_loss s).detection_level = s.detection_level ∧
    (check_win_loss s).max_detection = s.max_detection := by
  simp only [check_win_loss]
  repeat' split
  all_goals exact ⟨rfl, rfl⟩

theorem tick_timers_fields (dt : ℚ) (s : StealthGame) :
    (tick_timers dt s).max_detection = s.max_detection ∧
    (tick_timers dt s).objective_progress = s.objective_progress ∧
    (tick_timers dt s).objectives_needed = s.objectives_needed ∧
    (tick_timers dt s).currency = s.currency ∧
    (tick_timers dt s).pending_credits = s.pending_credits :=
  ⟨rfl, rfl, rfl, rfl, rfl⟩

theorem tick_secondary_fields (dt : ℚ) (o : UpdateOracle) (s : StealthGame) :
    (tick_secondary dt o s).max_detection = s.max_detection ∧
    (tick_secondary dt o s).objective_progress = s.objective_progress ∧
    (tick_secondary dt o s).objectives_needed = s.objectives_needed ∧
    (tick_secondary dt o s).currency = s.currency ∧
    (tick_secondary dt o s).pending_credits = s.pending_credits := by
  simp only [tick_secondary]
  split_ifs <;> exact ⟨rfl, rfl, rfl, rfl, rfl⟩

theorem tick_buttons_fields (dt : ℚ) (s : StealthGame) :
    (tick_buttons dt s).max_detection = s.max_detection ∧
    (tick_buttons dt s).objective_progress = s.objective_progress ∧
    (tick_buttons dt s).objectives_needed = s.objectives_needed ∧
    (tick_buttons dt s).currency = s.currency ∧
    (tick_buttons dt s).pending_credits = s.pending_credits :=
  ⟨rfl, rfl, rfl, rfl, rfl⟩

theorem tick_camera_fields (dt : ℚ) (s : StealthGame) :
    (tick_camera dt s).max_detection = s.max_detection ∧
    (tick_camera dt s).objective_progress = s.objective_progress ∧
    (tick_camera dt s).objectives_needed = s.objectives_needed ∧
    (tick_camera dt s).currency = s.currency ∧
    (tick_camera dt s).pending_credits = s.pending_credits := by
  simp only [tick_camera]
  split_ifs <;> exact ⟨rfl, rfl, rfl, rfl, rfl⟩

theorem tick_lights_fields (dt : ℚ) (s : StealthGame) :
    (tick_lights dt s).max_detection = s.max_detection ∧
    (tick_lights dt s).objective_progress = s.objective_progress ∧
    (tick_lights dt s).objectives_needed = s.objectives_needed ∧
    (tick_lights dt s).currency = s.currency ∧
    (tick_lights dt s).pending_credits = s.pending_credits := by
  simp only [tick_lights]
  split_ifs <;> exact ⟨rfl, rfl, rfl, rfl, rfl⟩

theorem tick_guards_fields (dt : ℚ) (s : StealthGame) :
    (tick_guards dt s).max_detection = s.max_detection ∧
    (tick_guards dt s).objective_progress = s.objective_progress ∧
    (tick_guards dt s).objectives_needed = s.objectives_needed ∧
    (tick_guards dt s).currency = s.currency ∧
    (tick_guards dt s).pending_credits = s.pending_credits :=
  ⟨rfl, rfl, rfl, rfl, rfl⟩

theorem accrue_base_detection_fields (dt : ℚ) (s : StealthGame) :
    (accrue_base_detection dt s).max_detection = s.max_detection ∧
    (accrue_base_detection dt s).objective_progress = s.objective_progress ∧
    (accrue_base_detection dt s).objectives_needed = s.objectives_needed ∧
    (accrue_base_detection dt s).currency = s.currency ∧
    (accrue_base_detection dt s).pending_credits = s.pending_credits :=
  ⟨rfl, rfl, rfl, rfl, rfl⟩

theorem guard_roll_detection_fields (o : UpdateOracle) (s : StealthGame) :
    (guard_roll_detection o s).max_detection = s.max_detection ∧
    (guard_roll_detection o s).objective_progress = s.objective_progress ∧
    (guard_roll_detection o s).objectives_needed = s.objectives_needed ∧
    (guard_roll_detection o s).currency = s.currency ∧
    (guard_roll_detection o s).pending_credits = s.pending_credits :=
  ⟨rfl, rfl, rfl, rfl, rfl⟩

theorem tick_events_fields (dt : ℚ) (o : UpdateOracle) (s : StealthGame) :
    (tick_events dt o s).max_detection = s.max_detection ∧
    (tick_events dt o s).objective_progress = s.objective_progress ∧
    (tick_events dt o s).objectives_needed = s.objectives_needed ∧
    (tick_events dt o s).currency = s.currency ∧
    (tick_events dt o s).pending_credits = s.pending_credits := by
  simp only [tick_events]
  split_ifs <;> exact ⟨rfl, rfl, rfl, rfl, rfl⟩

theorem apply_event_dps_fields (dt : ℚ) (s : StealthGame) :
    (apply_event_dps dt s).max_detection = s.max_detection ∧
    (apply_event_dps dt s).objective_progress = s.objective_progress ∧
    (apply_event_dps dt s).objectives_needed = s.objectives_needed ∧
    (apply_event_dps dt s).currency = s.currency ∧
    (apply_event_dps dt s).pending_credits = s.pending_credits := by
  simp only [apply_event_dps]
  split
  · split_ifs <;> exact ⟨rfl, rfl, rfl, rfl, rfl⟩
  · exact ⟨rfl, rfl, rfl, rfl, rfl⟩

/-- The playing-frame body never changes the clamp bound
`max_detection` nor the objective/credit counters. -/
theorem update_playing_body_preserves (dt : ℚ) (o : UpdateOracle)
    (s : StealthGame) :
    (update_playing_body dt o s).max_detection = s.max_detection ∧
    (update_playing_body dt o s).objective_progress = s.objective_progress ∧
    (update_playing_body dt o s).objectives_needed = s.objectives_needed ∧
    (update_playing_body dt o s).currency = s.currency ∧
    (update_playing_body dt o s).pending_credits = s.pending_credits := by
  simp only [update_playing_body]
  refine ⟨?_, ?_, ?_, ?_, ?_⟩
  · rw [(apply_event_dps_fields _ _).1, (tick_events_fields _ _ _).1,
      (guard_roll_detection_fields _ _).1, (accrue_base_detection_fields _ _).1,
      (tick_guards_fields _ _).1, (tick_lights_fields _ _).1,
      (tick_camera_fields _ _).1, (tick_buttons_fields _ _).1,
      (tick_secondary_fields _ _ _).1, (tick_timers_fields _ _).1]
  · rw [(apply_event_dps_fields _ _).2.1, (tick_events_fields _ _ _).2.1,
      (guard_roll_detection_fields _ _).2.1, (accrue_base_detection_fields _ _).2.1,
      (tick_guards_fields _ _).2.1, (tick_lights_fields _ _).2.1,
      (tick_camera_fields _ _).2.1, (tick_buttons_fields _ _).2.1,
      (tick_secondary_fields _ _ _).2.1, (tick_timers_fields _ _).2.1]
  · rw [(apply_event_dps_fields _ _).2.2.1, (tick_events_fields _ _ _).2.2.1,
      (guard_roll_detection_fields _ _).2.2.1, (accrue_base_detection_fields _ _).2.2.1,
      (tick_guards_fields _ _).2.2.1, (tick_lights_fields _ _).2.2.1,
      (tick_camera_fields _ _).2.2.1, (tick_buttons_fields _ _).2.2.1,
      (tick_secondary_fields _ _ _).2.2.1, (tick_timers_fields _ _).2.2.1]
  · rw [(apply_event_dps_fields _ _).2.2.2.1, (tick_events_fields _ _ _).2.2.2.1,
      (guard_roll_detection_fields _ _).2.2.2.1, (accrue_base_detection_fields _ _).2.2.2.1,
      (tick_guards_fields _ _).2.2.2.1, (tick_lights_fields _ _).2.2.2.1,
      (tick_camera_fields _ _).2.2.2.1, (tick_buttons_fields _ _).2.2.2.1,
      (tick_secondary_fields _ _ _).2.2.2.1, (tick_timers_fields _ _).2.2.2.1]
  · rw [(apply_event_dps_fields _ _).2.2.2.2, (tick_events_fields _ _ _).2.2.2.2,
      (guard_roll_detection_fields _ _).2.2.2.2, (accrue_base_detection_fields _ _).2.2.2.2,
      (tick_guards_fields _ _).2.2.2.2, (tick_lights_fields _ _).2.2.2.2,
      (tick_camera_fields _ _).2.2.2.2, (tick_buttons_fields _ _).2.2.2.2,
      (tick_secondary_fields _ _ _).2.2.2.2, (tick_timers_fields _ _).2.2.2.2]

/-- `C1` (amended): at the end of every `update` call that executes the
playing-state simulation body (state `"playing"`, not paused, no active
transition), the detection level lies within `[0, max_detection]`; an
update made while paused, or while a transition is active, leaves the
detection level (indeed the whole state) unchanged, so the bound can
only be re-established at the next executed frame. -/
theorem detection_clamped_spec (s sp st : StealthGame)
    (dt dtp dtt : ℚ) (o op ot : UpdateOracle)
    (hs : s.state = "playing") (hp : s.paused = false)
    (hmax : 0 ≤ s.max_detection)
    (hsp : sp.state = "playing") (hpp : sp.paused = true) :
    0 ≤ (update dt o false s).detection_level ∧
    (update dt o false s).detection_level ≤ s.max_detection ∧
    (update dtp op false sp).detection_level = sp.detection_level ∧
    (update dtt ot true st).detection_level = st.detection_level := by
  have heq := update_playing_eq dt o s hs hp
  have hdet := (check_win_loss_detection
    (clamp_detection (update_playing_body dt o s))).1
  have hmaxeq : (update_playing_body dt o s).max_detection = s.max_detection :=
    (update_playing_body_preserves dt o s).1
  have hclamp : (clamp_detection (update_playing_body dt o s)).detection_level =
      max 0 (min (update_playing_body dt o s).detection_level s.max_detection) := by
    rw [clamp_detection, ← hmaxeq]
  refine ⟨?_, ?_, ?_, ?_⟩
  · rw [heq, hdet, hclamp]
    exact le_max_left _ _
  · rw [heq, hdet, hclamp]
    exact max_le hmax (min_le_right _ _)
  · rw [update_paused dtp op sp hsp hpp]
  · rw [update_transition_suppressed]

/-- Witness for `detection_clamped_spec` at a concrete mission state. -/
theorem detection_clamped_spec_witness :
    0 ≤ (update 1 { spawn_roll := false
                    spawn_obj := { x := 0, y := 0, reward := 1, time_left := 20, active := true }
                    guard_rolls := fun _ => false, event_choice := 1, event_instant := 0 }
          false (mission_start [] 0 0 0)).detection_level := by
  have h := detection_clamped_spec (mission_start [] 0 0 0)
    (pause_click (mission_start [] 0 0 0)) (mission_start [] 0 0 0)
    1 1 1
    { spawn_roll := false
      spawn_obj := { x := 0, y := 0, reward := 1, time_left := 20, active := true }
      guard_rolls := fun _ => false, event_choice := 1, event_instant := 0 }
    { spawn_roll := false
      spawn_obj := { x := 0, y := 0, reward := 1, time_left := 20, active := true }
      guard_rolls := fun _ => false, event_choice := 1, event_instant := 0 }
    { spawn_roll := false
      spawn_obj := { x := 0, y := 0, reward := 1, time_left := 20, active := true }
      guard_rolls := fun _ => false, event_choice := 1, event_instant := 0 }
    rfl rfl (by norm_num [mission_start]) rfl rfl
  exact h.1

set_option maxRecDepth 4000 in
set_option maxHeartbeats 1000000 in
/-- Counterexample to `C1` as stated: a reachable play-through in which
the final step is an `update` call made while the mission state is
`"playing"`, yet the detection level ends at 100.9 > 100.  Seven frames
of danger-zone guard detections raise detection to 96.4, a successful
hack (its +4.5 is floored at 0 but not capped at `max_detection`) lifts
it to 100.9, the player pauses, and the next update returns before the
clamp because the mission is paused. -/
theorem detection_exceeds_max_counterexample :
    let g : Guard := { patrol_time := 8, current_time := 4, position := 1/2
                       alert := false, alert_time := 0 }
    let obj : SecondaryObjective := { x := 0, y := 0, reward := 1
                                      time_left := 20, active := true }
    let oAll : UpdateOracle := { spawn_roll := false, spawn_obj := obj
                                 guard_rolls := fun _ => true
                                 event_choice := 1, event_instant := 0 }
    let oOne : UpdateOracle := { spawn_roll := false, spawn_obj := obj
                                 guard_rolls := fun i => i == 0
                                 event_choice := 1, event_instant := 0 }
    let final := run_steps (mission_start [g, g, g] 0 0 0)
      (List.replicate 6 (GameStep.frame (1/10) oAll false) ++
        [GameStep.frame (1/10) oOne false, GameStep.hack 0, GameStep.pause,
         GameStep.frame (1/10) oAll false])
    final.state = "playing" ∧ final.max_detection = 100 ∧
    final.detection_level = 1009/10 ∧ ¬ (1009/10 : ℚ) ≤ 100 := by
  refine ⟨by with_unfolding_all decide, by with_unfolding_all decide,
    by with_unfolding_all decide, by norm_num⟩

/-- `C7`: the hack action.  The success probability is
`max(0.4, 0.85 - detection/120)` — `0.85` at detection 0, and exactly
`0.4` for every detection level ≥ 54; a successful hack adds exactly 2
objective progress and `15×0.3 = 4.5` detection (floored at 0 overall,
so exactly `+4.5` from any non-negative detection level), with the
cooldown set to `max(1, 3 − cooldown perk)`; a failed hack adds 15
detection capped at `max_detection` and sets the cooldown to
`max(2, 5 − cooldown perk)`. -/
theorem hack_action_spec (s : StealthGame) (roll : ℚ)
    (hactive : s.btn_hack.active = true) (hcd : ¬ s.btn_hack.cooldown > 0) :
    hack_success_chance 0 = 17/20 ∧
    (∀ d : ℚ, d ≥ 54 → hack_success_chance d = 2/5) ∧
    (roll ≤ hack_success_chance s.detection_level →
      (hack_click roll s).objective_progress = s.objective_progress + 2 ∧
      (hack_click roll s).detection_level = max 0 (s.detection_level + 15 * (3/10)) ∧
      (0 ≤ s.detection_level →
        (hack_click roll s).detection_level = s.detection_level + 9/2) ∧
      (hack_click roll s).btn_hack.cooldown = max 1 (3 - s.perk_cooldown_reduction)) ∧
    (¬ roll ≤ hack_success_chance s.detection_level →
      (hack_click roll s).detection_level = min s.max_detection (s.detection_level + 15) ∧
      (hack_click roll s).objective_progress = s.objective_progress ∧
      (hack_click roll s).btn_hack.cooldown = max 2 (5 - s.perk_cooldown_reduction)) := by
  have hclick : hack_click roll s =
      if roll ≤ hack_success_chance s.detection_level then
        { s with
          objective_progress := s.objective_progress + 2
          detection_level := max 0 (s.detection_level + 15 * (3/10))
          btn_hack := s.btn_hack.set_cooldown (max 1 (3 - s.perk_cooldown_reduction)) }
      else
        { s with
          detection_level := min s.max_detection (s.detection_level + 15)
          btn_hack := s.btn_hack.set_cooldown (max 2 (5 - s.perk_cooldown_reduction)) } := by
    unfold hack_click
    rw [if_neg (by simp [hactive]), if_neg hcd]
  refine ⟨?_, ?_, ?_, ?_⟩
  · unfold hack_success_chance
    norm_num
  · intro d hd
    unfold hack_success_chance
    rw [max_eq_left]
    have : d / 120 ≥ 54 / 120 := by linarith
    linarith
  · intro hroll
    rw [hclick, if_pos hroll]
    refine ⟨rfl, rfl, ?_, rfl⟩
    intro hdet
    show max 0 (s.detection_level + 15 * (3/10)) = s.detection_level + 9/2
    rw [max_eq_right (by linarith)]
    ring
  · intro hroll
    rw [hclick, if_neg hroll]
    exact ⟨rfl, rfl, rfl⟩

/-- Witness for `hack_action_spec`: a hack at mission start (detection
0) with roll 0 succeeds and adds exactly 2 objective progress. -/
theorem hack_action_spec_witness :
    (hack_click 0 (mission_start [] 0 0 0)).objective_progress = 0 + 2 := by
  have h := hack_action_spec (mission_start [] 0 0 0) 0 rfl
    (by norm_num [mission_start, Button.init])
  exact (h.2.2.1 (by norm_num [mission_start, hack_success_chance])).1

/-- Counterexample to `C8` as stated: the claim says the cut-lights
cooldown base is 6 seconds, but the code uses `base_cooldown = 5`; with
no cooldown-reduction perk the cooldown is set to 5, not
`max(1, 6 − 0) = 6`. -/
theorem cut_lights_cooldown_counterexample :
    (lights_click (mission_start [] 0 0 0)).btn_lights.cooldown = 5 ∧
    ¬ ((5 : ℚ) = max 1 ((6 : ℚ) - 0)) := by
  constructor
  · with_unfolding_all decide
  · norm_num

/-- `C8` (amended): activating cut-lights changes detection by −10
floored at 0, disables lights for a fixed 6 seconds, and sets the
cooldown to base 5 seconds minus the cooldown-reduction perk, floored
at 1 second. -/
theorem cut_lights_spec (s : StealthGame)
    (hactive : s.btn_lights.active = true) :
    (lights_click s).detection_level = max 0 (s.detection_level + (-10)) ∧
    (lights_click s).lights_disabled = true ∧
    (lights_click s).lights_disable_time = 6 ∧
    (lights_click s).btn_lights.cooldown = max 1 (5 - s.perk_cooldown_reduction) := by
  unfold lights_click
  rw [if_pos hactive]
  exact ⟨rfl, rfl, rfl, rfl⟩

/-- Witness for `cut_lights_spec`: cutting lights at mission start
fixes the disable duration at 6 seconds. -/
theorem cut_lights_spec_witness :
    (lights_click (mission_start [] 0 0 0)).lights_disable_time = 6 :=
  (cut_lights_spec (mission_start [] 0 0 0) rfl).2.2.1

/-- `C9`: the playing frame ends with the detection clamp followed by
the win/loss evaluation, in which the success condition (objective
progress ≥ target) is tested before the failure condition (detection
maxed or time out): on a success frame the pending credits are added to
permanent currency and reset to 0; on a failure frame the pending
credits are zeroed without being added; when both conditions hold,
success wins. -/
theorem win_loss_order_spec (dt : ℚ) (o : UpdateOracle)
    (s s2 : StealthGame)
    (hs : s.state = "playing") (hp : s.paused = false)
    (hpend : 0 ≤ s2.pending_credits) :
    update dt o false s =
      check_win_loss (clamp_detection (update_playing_body dt o s)) ∧
    (s2.objective_progress ≥ s2.objectives_needed →
      (check_win_loss s2).state = "success" ∧
      (check_win_loss s2).currency = s2.currency + s2.pending_credits ∧
      (check_win_loss s2).pending_credits = 0) ∧
    (¬ s2.objective_progress ≥ s2.objectives_needed →
      (s2.detection_level ≥ s2.max_detection ∨ s2.time_remaining ≤ 0) →
      (check_win_loss s2).state = "failure" ∧
      (check_win_loss s2).pending_credits = 0 ∧
      (check_win_loss s2).currency = s2.currency) := by
  refine ⟨update_playing_eq dt o s hs hp, ?_, ?_⟩
  · intro hwin
    refine ⟨?_, ?_, ?_⟩
    · simp only [check_win_loss]
      rw [if_pos hwin]
    · simp only [check_win_loss]
      rw [if_pos hwin]
      repeat' split
      all_goals first
        | rfl
        | (simp only [] at *; omega)
    · simp only [check_win_loss]
      rw [if_pos hwin]
      repeat' split
      all_goals first
        | rfl
        | (simp only [] at *; omega)
  · intro hnwin hfail
    simp only [check_win_loss]
    rw [if_neg hnwin, if_pos hfail]
    exact ⟨rfl, rfl, rfl⟩

/-- Witness for `win_loss_order_spec` at a concrete frame state whose
objective target is met while detection is simultaneously maxed:
success is detected and the pending credits are banked. -/
theorem win_loss_order_spec_witness :
    (check_win_loss
      { mission_start [] 7 0 0 with
          objective_progress := 5, detection_level := 100
          pending_credits := 4 }).state = "success" ∧
    (check_win_loss
      { mission_start [] 7 0 0 with
          objective_progress := 5, detection_level := 100
          pending_credits := 4 }).currency = 7 + 4 := by
  have h := win_loss_order_spec 1
    { spawn_roll := false
      spawn_obj := { x := 0, y := 0, reward := 1, time_left := 20, active := true }
      guard_rolls := fun _ => false, event_choice := 1, event_instant := 0 }
    (mission_start [] 0 0 0)
    { mission_start [] 7 0 0 with
        objective_progress := 5, detection_level := 100
        pending_credits := 4 }
    rfl rfl (by norm_num [mission_start])
  have h2 := h.2.1 (by norm_num [mission_start])
  exact ⟨h2.1, h2.2.1⟩

end StealthGame

end Silksong
